import Mathlib

/-
Verification of the anisotropic pair-potential configuration layer
(hoomd/md/pair/aniso.py: AnisotropicPair, Dipole, GayBerne).

Particle types are opaque integer indices into the simulation-wide ordered
list of type names (spec section 3); parameter values are rationals standing
for the real-valued coefficients.  The declaration layer visible in aniso.py
(which TypeParameterDicts each class creates, with which fields and key
lengths) is embedded directly from the source; the semantics of the
supporting containers and validators (hoomd.data.parameterdicts,
hoomd.data.typeconverter) and of the C++ force kernels are not part of the
visible source and are modelled from the spec where a definition says so.
-/

namespace Aniso

/-- A particle type: an opaque integer index into the fixed ordered list of
type names (spec section 3). -/
abbrev ParticleType := Nat

/-- Parameter values: scalar coefficients and 3-vectors (the dipole moment
`mu` is a 3-vector in the particle local frame). -/
inductive PVal where
  | real (q : ℚ)
  | vec3 (x y z : ℚ)
deriving DecidableEq, Repr

/-- The error taxonomy of spec section 7, plus the Python-level errors the
visible code can raise (a strict type check failure, and an unresolved
global name). -/
inductive PairError where
  | MissingParameterError (field : String) (key : List ParticleType)
  | InvalidConfigurationError (what : String)
  | TypeError (what : String)
  | NameError (name : String)
deriving DecidableEq, Repr

/-- Association-list lookup used for field records and for keyed entries. -/
def alookup {α β : Type} [DecidableEq α] (k : α) : List (α × β) → Option β
  | [] => Option.none
  | (k', v) :: rest => if k = k' then Option.some v else alookup k rest

/-- Modelled from the spec: the value validators of hoomd.data.typeconverter
(not under src/).  `float` accepts any real, `(float, float, float)` accepts
any 3-vector, and `positive_real` accepts exactly the positive reals. -/
inductive Validator where
  | anyReal
  | anyVec3
  | positiveReal
deriving DecidableEq, Repr

def Validator.check : Validator → PVal → Bool
  | .anyReal, .real _ => true
  | .anyVec3, .vec3 _ _ _ => true
  | .positiveReal, .real q => decide (0 < q)
  | _, _ => false

/-- One field of a TypeParameterDict declaration.  A field declared by a bare
type (such as `A=float` or `kappa=float` in aniso.py) is required and has no
default (`default = Option.none`); a field declared by a concrete value would
carry that value as its default. -/
structure FieldSpec where
  name : String
  default : Option PVal
  validator : Validator
deriving DecidableEq, Repr

/-- Modelled from the spec: hoomd.data.parameterdicts.TypeParameterDict (not
under src/), the TypePairParameterTable of spec section 4.1.  It stores, per
(normalized) type key, a possibly partial parameter record; defaults set on
the whole dict fall back lazily at lookup time; `len_keys` is the length of a
lookup key (1 = per single type, 2 = per unordered type pair). -/
structure TypeParameterDict where
  len_keys : Nat
  fields : List FieldSpec
  defaults : List (String × PVal)
  entries : List (List ParticleType × List (String × PVal))
deriving DecidableEq, Repr

/-- Modelled from the spec: key normalization for the unordered TypePairKey
(spec section 3: equality and hashing must be symmetric, key(A,B) =
key(B,A)); a pair key is stored sorted, a single-type key is unchanged. -/
def normKey : List ParticleType → List ParticleType
  | [a, b] => if b < a then [b, a] else [a, b]
  | k => k

/-- Modelled from the spec: the lookup key a pair evaluation uses for one of
its particles.  A `len_keys = 2` parameter is looked up under the unordered
pair key; a `len_keys = 1` parameter (such as Dipole `mu`) is looked up under
the particle's own single type, so for a same-type pair (T,T) the key
collapses to [T]. -/
def pairLookupKey (len_keys : Nat) (a b : ParticleType) : List ParticleType :=
  if len_keys = 1 then [a] else normKey [a, b]

/-- Modelled from the spec: `set(key, record)` of section 4.1.  The supplied
values are checked against their field validators (a value outside its valid
domain is an InvalidConfigurationError, section 7), but the record may leave
required fields unset: presence is validated lazily, at lookup time, never at
declaration time.  A stored record replaces any earlier record for the key,
with no partial merge. -/
def TypeParameterDict.set (d : TypeParameterDict) (key : List ParticleType)
    (record : List (String × PVal)) : Except PairError TypeParameterDict :=
  if record.all (fun kv =>
      match alookup kv.1 (d.fields.map (fun f => (f.name, f.validator))) with
      | Option.some v => v.check kv.2
      | Option.none => false)
  then Except.ok { d with entries := (normKey key, record) :: d.entries }
  else Except.error (PairError.InvalidConfigurationError "invalid parameter value")

/-- Modelled from the spec: `set_default(field, value)` of section 4.1, a
fallback applied to all keys lacking an explicit value, also validated. -/
def TypeParameterDict.setDefault (d : TypeParameterDict) (f : String) (v : PVal) :
    Except PairError TypeParameterDict :=
  match alookup f (d.fields.map (fun fs => (fs.name, fs.validator))) with
  | Option.some val =>
      if val.check v then Except.ok { d with defaults := (f, v) :: d.defaults }
      else Except.error (PairError.InvalidConfigurationError f)
  | Option.none => Except.error (PairError.InvalidConfigurationError f)

/-- Resolve one field at lookup time: an explicit entry value wins, then a
dict-level default, then the field's declared default; a required field with
none of these is a MissingParameterError naming the field and the key (spec
sections 4.1 and 7). -/
def resolveField (d : TypeParameterDict) (entry : List (String × PVal))
    (k : List ParticleType) (f : FieldSpec) : Except PairError (String × PVal) :=
  match alookup f.name entry with
  | Option.some v => Except.ok (f.name, v)
  | Option.none =>
    match alookup f.name d.defaults with
    | Option.some v => Except.ok (f.name, v)
    | Option.none =>
      match f.default with
      | Option.some v => Except.ok (f.name, v)
      | Option.none => Except.error (PairError.MissingParameterError f.name k)

/-- Resolve a list of fields in declaration order, failing on the first
unresolved required field. -/
def resolveAll (d : TypeParameterDict) (entry : List (String × PVal))
    (k : List ParticleType) : List FieldSpec → Except PairError (List (String × PVal))
  | [] => Except.ok []
  | f :: fs =>
    match resolveField d entry k f with
    | Except.ok kv =>
      match resolveAll d entry k fs with
      | Except.ok rest => Except.ok (kv :: rest)
      | Except.error e => Except.error e
    | Except.error e => Except.error e

/-- `get` on an already-normalized key. -/
def TypeParameterDict.getNorm (d : TypeParameterDict) (k : List ParticleType) :
    Except PairError (List (String × PVal)) :=
  resolveAll d ((alookup k d.entries).getD []) k d.fields

/-- Modelled from the spec: `get(key) -> record` of section 4.1 — returns the
resolved record (explicit values override defaults) for the normalized key,
failing with MissingParameterError if any required field is unresolved. -/
def TypeParameterDict.get (d : TypeParameterDict) (key : List ParticleType) :
    Except PairError (List (String × PVal)) :=
  d.getNorm (normKey key)

/-- Whether an Except carries a success. -/
def exOk {α : Type} : Except PairError α → Bool
  | Except.ok _ => true
  | Except.error _ => false

/-- A Python value passed as the `nlist` constructor argument: either an
instance of hoomd.md.nlist.NList (identified by an opaque id) or any other
Python value, described by its repr. -/
inductive PyValue where
  | nlistVal (id : Nat)
  | otherVal (desc : String)
deriving DecidableEq, Repr

/-- Modelled from the spec: hoomd.data.typeconverter.OnlyType applied with
`strict=True` (not under src/), as called on the first line of
AnisotropicPair.__init__ (aniso.py line 32).  A strict type check: an NList
instance passes through unchanged, any other value raises a type error; no
coercion is attempted. -/
def onlyTypeNList (v : PyValue) : Except PairError PyValue :=
  match v with
  | PyValue.nlistVal i => Except.ok (PyValue.nlistVal i)
  | PyValue.otherVal d => Except.error (PairError.TypeError ("expected NList, got " ++ d))

/-- Modelled from the spec: hoomd.data.typeconverter.OnlyFrom (not under
src/), as used for the shift mode (aniso.py line 39).  A value in the allowed
list is stored as is; any other value is an InvalidConfigurationError (spec
section 7: ShiftMode set to a value outside the enumerated set). -/
def onlyFrom (allowed : List String) (v : String) : Except PairError String :=
  if v ∈ allowed then Except.ok v else Except.error (PairError.InvalidConfigurationError v)

/-- The r_cut field declaration of AnisotropicPair.__init__ (aniso.py lines
33-35): `TypeParameterDict(positive_real, len_keys=2)` — one positive-real
value per unordered type pair, required, with no declared default. -/
def rcutField : FieldSpec :=
  { name := "r_cut", default := Option.none, validator := Validator.positiveReal }

def rcutDict : TypeParameterDict :=
  { len_keys := 2, fields := [rcutField], defaults := [], entries := [] }

/-- The state a successfully constructed AnisotropicPair holds: the validated
neighbor list, the r_cut table, and the shift mode. -/
structure AnisotropicPairState where
  nlist : PyValue
  r_cut : TypeParameterDict
  mode : String
deriving DecidableEq, Repr

/-- AnisotropicPair.__init__ (aniso.py lines 31-41), embedded statement by
statement: first the strict nlist type check (line 32, before any state is
initialized), then the r_cut TypeParameterDict (lines 33-35) whose default is
set when the r_cut argument is not None (lines 36-37), then the shift mode
validated by OnlyFrom(['none', 'shift']) (lines 38-40). -/
def AnisotropicPair.init (nlist : PyValue) (r_cut : Option ℚ) (mode : String) :
    Except PairError AnisotropicPairState :=
  match onlyTypeNList nlist with
  | Except.error e => Except.error e
  | Except.ok nl =>
    match (match r_cut with
           | Option.some v => rcutDict.setDefault "r_cut" (PVal.real v)
           | Option.none => Except.ok rcutDict) with
    | Except.error e => Except.error e
    | Except.ok tp =>
      match onlyFrom ["none", "shift"] mode with
      | Except.error e => Except.error e
      | Except.ok m => Except.ok { nlist := nl, r_cut := tp, mode := m }

/-- A later assignment to the `mode` attribute, routed through the same
OnlyFrom(['none', 'shift']) validator held by the parameter dict. -/
def AnisotropicPairState.setMode (st : AnisotropicPairState) (m : String) :
    Except PairError AnisotropicPairState :=
  match onlyFrom ["none", "shift"] m with
  | Except.ok m' => Except.ok { st with mode := m' }
  | Except.error e => Except.error e

/-- The Dipole `params` declaration (aniso.py lines 111-113):
`TypeParameterDict(A=float, kappa=float, len_keys=2)` — A and kappa are each
declared by the bare type `float`, so both are required with no default, and
both are keyed per unordered type pair. -/
def dipoleParamsDict : TypeParameterDict :=
  { len_keys := 2,
    fields := [{ name := "A", default := Option.none, validator := Validator.anyReal },
               { name := "kappa", default := Option.none, validator := Validator.anyReal }],
    defaults := [], entries := [] }

/-- The Dipole `mu` declaration (aniso.py lines 114-116):
`TypeParameterDict((float, float, float), len_keys=1)` — a required 3-vector
keyed per single particle type. -/
def dipoleMuDict : TypeParameterDict :=
  { len_keys := 1,
    fields := [{ name := "mu", default := Option.none, validator := Validator.anyVec3 }],
    defaults := [], entries := [] }

structure DipoleState where
  base : AnisotropicPairState
  params : TypeParameterDict
  mu : TypeParameterDict
deriving DecidableEq, Repr

/-- Dipole.__init__ (aniso.py lines 109-117): the AnisotropicPair
construction followed by the `params` and `mu` TypeParameter declarations. -/
def Dipole.init (nlist : PyValue) (r_cut : Option ℚ) (mode : String) :
    Except PairError DipoleState :=
  match AnisotropicPair.init nlist r_cut mode with
  | Except.error e => Except.error e
  | Except.ok base => Except.ok { base := base, params := dipoleParamsDict, mu := dipoleMuDict }

/-- The GayBerne `params` declaration (aniso.py lines 202-207):
`TypeParameterDict(epsilon=float, lperp=float, lpar=float, len_keys=2)` — all
three fields required, keyed per unordered type pair. -/
def gbParamsDict : TypeParameterDict :=
  { len_keys := 2,
    fields := [{ name := "epsilon", default := Option.none, validator := Validator.anyReal },
               { name := "lperp", default := Option.none, validator := Validator.anyReal },
               { name := "lpar", default := Option.none, validator := Validator.anyReal }],
    defaults := [], entries := [] }

structure GayBerneState where
  base : AnisotropicPairState
  params : TypeParameterDict
deriving DecidableEq, Repr

/-- GayBerne.__init__ (aniso.py lines 200-208). -/
def GayBerne.init (nlist : PyValue) (r_cut : Option ℚ) (mode : String) :
    Except PairError GayBerneState :=
  match AnisotropicPair.init nlist r_cut mode with
  | Except.error e => Except.error e
  | Except.ok base => Except.ok { base := base, params := gbParamsDict }

/-- The two enumerated shift modes (spec section 3: ShiftMode is {none,
shift}, one setting per potential instance). -/
inductive ShiftMode where
  | modeNone
  | modeShift
deriving DecidableEq, Repr

/-- Raw output of one kernel invocation for one pair: energy, force on i,
torque on i, torque on j, and the inside-cutoff validity flag (spec section
2, PotentialKernel). -/
structure KernelOut where
  energy : ℚ
  force : ℚ × ℚ × ℚ
  torque_i : ℚ × ℚ × ℚ
  torque_j : ℚ × ℚ × ℚ
  in_range : Bool
deriving DecidableEq, Repr

/-- Modelled from the spec: the ShiftPolicy of section 4.4 (the kernels and
shift application live in the C++ AnisoPotentialPair templates, not under
src/).  The kernel is abstracted as a function of the separation distance,
with the parameter record, the orientations of the two particles and the
kernel variant already fixed inside it.  Mode `none` passes the raw output
through unchanged; mode `shift` calls the kernel a second time at the pair's
effective cutoff distance with the same orientations and subtracts that
energy from the returned energy of every in-range pair, leaving force and
torque untouched. -/
def applyShift (mode : ShiftMode) (kernel : ℚ → KernelOut) (r rcut : ℚ) : KernelOut :=
  let raw := kernel r
  match mode with
  | ShiftMode.modeNone => raw
  | ShiftMode.modeShift =>
    if raw.in_range then { raw with energy := raw.energy - (kernel rcut).energy }
    else raw

/-- The names bound at module scope of aniso.py: the six import statements
(lines 1-6) bind md, Pair, log, ParameterDict, TypeParameterDict,
TypeParameter, OnlyType, OnlyFrom and positive_real, and the class
statements bind AnisotropicPair, Dipole and GayBerne.  The name `json` is
never bound. -/
def moduleNames : List String :=
  ["md", "Pair", "log", "ParameterDict", "TypeParameterDict", "TypeParameter",
   "OnlyType", "OnlyFrom", "positive_real",
   "AnisotropicPair", "Dipole", "GayBerne"]

/-- A shape descriptor handed to the visualization layer (spec section 6): a
tagged record with the ellipsoid semi-axes. -/
structure ShapeDescriptor where
  kind : String
  a : ℚ
  b : ℚ
  c : ℚ
deriving DecidableEq, Repr

/-- Modelled from the spec: the shape the GayBerne kernel reports for one
particle type (section 4.6) — an ellipsoid whose semi-axes derive from
{lperp, lperp, lpar} of the type's (T,T) self-interaction entry of the
parameter table. -/
def gayBerneShapeOf (d : TypeParameterDict) (t : ParticleType) : ShapeDescriptor :=
  match d.get [t, t] with
  | Except.ok r =>
    match alookup "lperp" r, alookup "lpar" r with
    | Option.some (PVal.real lperp), Option.some (PVal.real lpar) =>
      { kind := "Ellipsoid", a := lperp, b := lperp, c := lpar }
    | _, _ => { kind := "Ellipsoid", a := 0, b := 0, c := 0 }
  | Except.error _ => { kind := "Ellipsoid", a := 0, b := 0, c := 0 }

/-- Modelled from the spec: `self.cpp_force.getTypeShapesPy()` (C++ code not
under src/) — one serialized shape descriptor per declared particle type, a
pure query of the parameter table with no dependence on the neighbor list.
The serialized JSON strings are represented by the descriptors they
encode. -/
def getTypeShapesPy (d : TypeParameterDict) (types : List ParticleType) :
    List ShapeDescriptor :=
  types.map (gayBerneShapeOf d)

/-- One iteration of the list comprehension on aniso.py line 45:
`json.loads(json_string)`.  Evaluating the body first resolves the free name
`json` against the enclosing scopes; aniso.py never imports json, so the
lookup escalates to module scope and the builtins and fails with a NameError.
Were the name bound, json.loads would decode the serialized descriptor. -/
def jsonLoads (s : ShapeDescriptor) : Except PairError ShapeDescriptor :=
  if "json" ∈ moduleNames then Except.ok s
  else Except.error (PairError.NameError "json")

/-- Evaluate an effectful function over a list left to right, stopping at the
first error — the evaluation order of a Python list comprehension. -/
def mapExcept {α β : Type} (f : α → Except PairError β) :
    List α → Except PairError (List β)
  | [] => Except.ok []
  | x :: xs =>
    match f x with
    | Except.ok y =>
      match mapExcept f xs with
      | Except.ok ys => Except.ok (y :: ys)
      | Except.error e => Except.error e
    | Except.error e => Except.error e

/-- AnisotropicPair._return_type_shapes (aniso.py lines 43-46): call
getTypeShapesPy on the C++ force object, then run the comprehension
`[json.loads(json_string) for json_string in type_shapes]` over the returned
strings.  GayBerne.type_shapes (lines 210-222) returns exactly this. -/
def return_type_shapes (d : TypeParameterDict) (types : List ParticleType) :
    Except PairError (List ShapeDescriptor) :=
  mapExcept jsonLoads (getTypeShapesPy d types)

/-- GayBerne.type_shapes (aniso.py lines 210-222): returns
super()._return_type_shapes() for the declared particle types. -/
def GayBerne.type_shapes (st : GayBerneState) (types : List ParticleType) :
    Except PairError (List ShapeDescriptor) :=
  return_type_shapes st.params types

end Aniso

namespace Aniso

theorem normKey_pair_comm (a b : ParticleType) : normKey [a, b] = normKey [b, a] := by
  rcases Nat.lt_trichotomy a b with h | h | h
  · simp [normKey, h, Nat.lt_asymm h]
  · simp [normKey, h]
  · simp [normKey, h, Nat.lt_asymm h]

theorem normKey_self (t : ParticleType) : normKey [t, t] = [t, t] := by
  simp [normKey]

/-- Claim C3: for every table and every pair of particle types (A,B), lookup
is symmetric in the key order: the record resolved for key (A,B) is identical
to the record resolved for key (B,A).  This holds for the per-pair parameter
tables and for the cutoff table alike, which are the same structure. -/
theorem get_symmetric (d : TypeParameterDict) (a b : ParticleType) :
    d.get [a, b] = d.get [b, a] := by
  unfold TypeParameterDict.get
  rw [normKey_pair_comm]

/-- Claim C1: for both Dipole and GayBerne, declaring parameters with a
required field left unset succeeds at declaration time — setting only epsilon
and lperp for a GayBerne pair (T,T) (omitting lpar), or only A for a Dipole
pair (omitting kappa), stores the partial record without error — and the
failure surfaces only when an evaluation pass resolves the record for a pair
of that type, as a MissingParameterError identifying the missing field and
the offending type pair. -/
theorem lazy_validation_missing_required (t : ParticleType) (e l c : ℚ) :
    gbParamsDict.set [t, t] [("epsilon", PVal.real e), ("lperp", PVal.real l)]
      = Except.ok { gbParamsDict with
          entries := [([t, t], [("epsilon", PVal.real e), ("lperp", PVal.real l)])] }
    ∧ ({ gbParamsDict with
          entries := [([t, t], [("epsilon", PVal.real e), ("lperp", PVal.real l)])] } :
        TypeParameterDict).get [t, t]
      = Except.error (PairError.MissingParameterError "lpar" [t, t])
    ∧ dipoleParamsDict.set [t, t] [("A", PVal.real c)]
      = Except.ok { dipoleParamsDict with entries := [([t, t], [("A", PVal.real c)])] }
    ∧ ({ dipoleParamsDict with entries := [([t, t], [("A", PVal.real c)])] } :
        TypeParameterDict).get [t, t]
      = Except.error (PairError.MissingParameterError "kappa" [t, t]) := by
  refine ⟨?_, ?_, ?_, ?_⟩ <;>
    simp [TypeParameterDict.set, TypeParameterDict.get, TypeParameterDict.getNorm,
          gbParamsDict, dipoleParamsDict, alookup, Validator.check, normKey,
          Nat.lt_irrefl, resolveAll, resolveField]

/-- Claim C2: a Dipole instance keys the parameter mu by a single particle
type (a len_keys = 1 table holding exactly the field mu) and the parameters A
and kappa by an unordered pair of types (a len_keys = 2 table holding exactly
the fields A and kappa); for a same-type pair (T,T) the mu lookup key
collapses to the single type T, while the pair-keyed lookup keeps the full
pair key. -/
theorem dipole_mu_single_type_key (i : Nat) (T : ParticleType) :
    Dipole.init (PyValue.nlistVal i) Option.none "none"
      = Except.ok { base := { nlist := PyValue.nlistVal i, r_cut := rcutDict, mode := "none" },
                    params := dipoleParamsDict, mu := dipoleMuDict }
    ∧ dipoleMuDict.len_keys = 1
    ∧ dipoleParamsDict.len_keys = 2
    ∧ dipoleMuDict.fields.map FieldSpec.name = ["mu"]
    ∧ dipoleParamsDict.fields.map FieldSpec.name = ["A", "kappa"]
    ∧ pairLookupKey dipoleMuDict.len_keys T T = [T]
    ∧ pairLookupKey dipoleParamsDict.len_keys T T = [T, T] := by
  refine ⟨rfl, rfl, rfl, rfl, rfl, ?_, ?_⟩ <;>
    simp [pairLookupKey, dipoleMuDict, dipoleParamsDict, normKey, Nat.lt_irrefl]

/-- Claim C4: the shift mode of an anisotropic pair potential only ever holds
one of the two enumerated values "none" and "shift"; an assignment of any
other value, at construction or later, is rejected with an
InvalidConfigurationError and nothing is stored, while an assignment of an
enumerated value is stored exactly. -/
theorem mode_only_enumerated (st : AnisotropicPairState) (v : String) (i : Nat) :
    st.setMode v = (if v = "none" ∨ v = "shift"
                    then Except.ok { st with mode := v }
                    else Except.error (PairError.InvalidConfigurationError v))
    ∧ AnisotropicPair.init (PyValue.nlistVal i) Option.none v
      = (if v = "none" ∨ v = "shift"
         then Except.ok { nlist := PyValue.nlistVal i, r_cut := rcutDict, mode := v }
         else Except.error (PairError.InvalidConfigurationError v)) := by
  constructor <;> by_cases h : v = "none" ∨ v = "shift" <;>
    simp [AnisotropicPairState.setMode, AnisotropicPair.init, onlyTypeNList, onlyFrom, h]

/-- Claim C10: for every construction of AnisotropicPair, Dipole or GayBerne,
an nlist argument that is not an instance of hoomd.md.nlist.NList makes the
constructor fail with a type error before any state is initialized (the check
is the first statement of AnisotropicPair.__init__, and no coercion is
attempted). -/
theorem strict_nlist_type_check (d : String) (rc : Option ℚ) (m : String) :
    AnisotropicPair.init (PyValue.otherVal d) rc m
      = Except.error (PairError.TypeError ("expected NList, got " ++ d))
    ∧ Dipole.init (PyValue.otherVal d) rc m
      = Except.error (PairError.TypeError ("expected NList, got " ++ d))
    ∧ GayBerne.init (PyValue.otherVal d) rc m
      = Except.error (PairError.TypeError ("expected NList, got " ++ d)) :=
  ⟨rfl, rfl, rfl⟩

theorem exOk_ite (b : Bool) {α : Type} (x : α) (e : PairError) :
    exOk (if b then Except.ok x else Except.error e) = b := by
  cases b <;> simp [exOk]

/-- Claim C6: a cutoff value is stored (whether set per pair or as the
instance-wide default) exactly when it is a positive real, and for a pair
whose cutoff was never resolved — as when the instance is constructed with no
default r_cut — lookup fails with an error naming r_cut and the pair, rather
than yielding zero or an absent cutoff. -/
theorem cutoff_positive_and_required (i a b : ParticleType) (v : ℚ) :
    exOk (rcutDict.set [a, b] [("r_cut", PVal.real v)]) = decide (0 < v)
    ∧ exOk (rcutDict.setDefault "r_cut" (PVal.real v)) = decide (0 < v)
    ∧ exOk (AnisotropicPair.init (PyValue.nlistVal i) (Option.some v) "none") = decide (0 < v)
    ∧ AnisotropicPair.init (PyValue.nlistVal i) Option.none "none"
        = Except.ok { nlist := PyValue.nlistVal i, r_cut := rcutDict, mode := "none" }
    ∧ rcutDict.get [a, b]
        = Except.error (PairError.MissingParameterError "r_cut" (normKey [a, b])) := by
  refine ⟨?_, ?_, ?_, rfl, rfl⟩ <;>
    by_cases h : 0 < v <;>
      simp [TypeParameterDict.set, TypeParameterDict.setDefault, AnisotropicPair.init,
            onlyTypeNList, onlyFrom, rcutDict, rcutField, alookup, Validator.check,
            exOk, exOk_ite, h]

/-- Claim C5, evaluation of the code at the failing input: the Dipole
parameter A is declared `A=float` (required, no default), so a record
supplying kappa but omitting A does not resolve to A = 1.0 — lookup fails
with MissingParameterError for A, contradicting the docstring's "A
(optional, default 1.0)". -/
theorem dipole_A_required_in_code :
    dipoleParamsDict.set [0, 0] [("kappa", PVal.real 1)]
      = Except.ok { dipoleParamsDict with entries := [([0, 0], [("kappa", PVal.real 1)])] }
    ∧ ({ dipoleParamsDict with entries := [([0, 0], [("kappa", PVal.real 1)])] } :
        TypeParameterDict).get [0, 0]
      = Except.error (PairError.MissingParameterError "A" [0, 0]) :=
  ⟨rfl, rfl⟩

/-- Claim C7: for every kernel (the variant, parameter record and pair
geometry are all folded into the kernel function of distance) and every
separation and cutoff distance, shift mode yields exactly the force and the
two torques of mode none, and on an in-range pair the returned energy differs
from the unshifted energy exactly by the kernel energy evaluated at the
pair's effective cutoff. -/
theorem shift_preserves_force_torque (kernel : ℚ → KernelOut) (r rcut : ℚ) :
    (applyShift ShiftMode.modeShift kernel r rcut).force
      = (applyShift ShiftMode.modeNone kernel r rcut).force
    ∧ (applyShift ShiftMode.modeShift kernel r rcut).torque_i
      = (applyShift ShiftMode.modeNone kernel r rcut).torque_i
    ∧ (applyShift ShiftMode.modeShift kernel r rcut).torque_j
      = (applyShift ShiftMode.modeNone kernel r rcut).torque_j
    ∧ ((kernel r).in_range = true →
        (applyShift ShiftMode.modeShift kernel r rcut).energy
          = (applyShift ShiftMode.modeNone kernel r rcut).energy - (kernel rcut).energy) := by
  unfold applyShift
  cases h : (kernel r).in_range <;> simp [h]

/-- Witness for C7 at a concrete in-range kernel output. -/
theorem shift_preserves_force_torque_witness :
    ((fun _ => { energy := 5, force := (1, 2, 3), torque_i := (4, 5, 6),
                 torque_j := (7, 8, 9), in_range := true } : ℚ → KernelOut) 1).in_range = true
    ∧ (applyShift ShiftMode.modeShift
         (fun _ => { energy := 5, force := (1, 2, 3), torque_i := (4, 5, 6),
                     torque_j := (7, 8, 9), in_range := true }) 1 2).energy
      = (applyShift ShiftMode.modeNone
           (fun _ => { energy := 5, force := (1, 2, 3), torque_i := (4, 5, 6),
                       torque_j := (7, 8, 9), in_range := true }) 1 2).energy
        - ((fun _ => { energy := 5, force := (1, 2, 3), torque_i := (4, 5, 6),
                       torque_j := (7, 8, 9), in_range := true } : ℚ → KernelOut) 2).energy :=
  ⟨rfl, (shift_preserves_force_torque
          (fun _ => { energy := 5, force := (1, 2, 3), torque_i := (4, 5, 6),
                      torque_j := (7, 8, 9), in_range := true }) 1 2).2.2.2 rfl⟩

/-- Claim C8, evaluation of the code at the failing input: on a GayBerne
instance over a system with one declared particle type, type_shapes does not
return the documented ellipsoid descriptor list — the comprehension in
_return_type_shapes resolves the unbound name json and fails with a
NameError. -/
theorem gb_type_shapes_raises :
    GayBerne.init (PyValue.nlistVal 0) Option.none "none"
      = Except.ok { base := { nlist := PyValue.nlistVal 0, r_cut := rcutDict, mode := "none" },
                    params := gbParamsDict }
    ∧ GayBerne.type_shapes
        { base := { nlist := PyValue.nlistVal 0, r_cut := rcutDict, mode := "none" },
          params := gbParamsDict } [0]
      = Except.error (PairError.NameError "json") :=
  ⟨rfl, rfl⟩

/-- Claim C9 (amended): on a system with at least one declared particle type,
every call of the type-shapes query fails with a NameError on the unbound
name json before any descriptor is produced, whatever the parameter table
holds. -/
theorem type_shapes_name_error (d : TypeParameterDict) (t : ParticleType)
    (ts : List ParticleType) :
    return_type_shapes d (t :: ts) = Except.error (PairError.NameError "json") := by
  simp [return_type_shapes, getTypeShapesPy, mapExcept, jsonLoads, moduleNames]

/-- Counterexample to claim C9 as stated: with zero declared particle types
the comprehension body never runs, so no NameError is raised and the call
returns the empty shape list. -/
theorem type_shapes_empty_types_ok :
    return_type_shapes gbParamsDict [] = Except.ok []
    ∧ return_type_shapes gbParamsDict [] ≠ Except.error (PairError.NameError "json") :=
  ⟨rfl, fun h => Except.noConfusion h⟩

end Aniso
